import Mathlib

/-!
Shallow embedding of `src/scm/webhook.go` from abayer/go-scm: the webhook event
data model, the `Repository()` capability, and the tagged marshal/unmarshal
codec on `WebhookUnmarshaler`.
-/

namespace GoScm

/-- Model of a parsed JSON document, as handled by Go's `encoding/json`.
Object member order is kept (Go map marshalling sorts keys; the concrete
objects built here list their keys in that sorted order). -/
inductive Json where
  | null
  | bool (b : Bool)
  | num (n : Int)
  | str (s : String)
  | arr (elems : List Json)
  | obj (fields : List (String × Json))

/-- A byte sequence given to `json.Unmarshal`: either it parses as a JSON
document or it is syntactically malformed. This abstracts the lexical layer
of `encoding/json`, which is outside this repository. -/
inductive Bytes where
  | wellFormed (j : Json)
  | malformed

/-- Go error values produced along the paths of `webhook.go`. -/
inductive GoError where
  /-- Error `json.SyntaxError`: the input bytes are not valid JSON. -/
  | jsonSyntax
  /-- Error `json.UnmarshalTypeError`: valid JSON that does not fit the target Go type. -/
  | typeMismatch (target : String)
  /-- Error `json.InvalidUnmarshalError`: `json.Unmarshal` was handed a nil pointer target. -/
  | invalidUnmarshal (target : String)
  /-- An error built with `fmt.Errorf`. -/
  | errorf (msg : String)
deriving DecidableEq

/-- Outcome of running a Go function body: normal return, or a runtime panic. -/
inductive GoOutcome (α : Type) where
  | ok (val : α)
  | panicked (msg : String)

/-- Modelled from the spec: `Repository` is a record type defined elsewhere in
the repository (not under `src/`); the spec treats its contents as out of scope
(§1 non-goals), so it is modelled as an abstract record with an uninterpreted
payload. -/
structure Repository where
  data : String
deriving DecidableEq

/-- Modelled from the spec: `User` is defined outside `src/`; abstract record. -/
structure User where
  data : String
deriving DecidableEq

/-- Modelled from the spec: `Commit` is defined outside `src/`; abstract record. -/
structure Commit where
  data : String
deriving DecidableEq

/-- Modelled from the spec: `Reference` is defined outside `src/`; abstract record. -/
structure Reference where
  data : String
deriving DecidableEq

/-- Modelled from the spec: `Action` is defined outside `src/`; abstract value. -/
structure Action where
  data : Nat
deriving DecidableEq

/-- Modelled from the spec: `Issue` is defined outside `src/`; abstract record. -/
structure Issue where
  data : String
deriving DecidableEq

/-- Modelled from the spec: `Comment` is defined outside `src/`; abstract record. -/
structure Comment where
  data : String
deriving DecidableEq

/-- Modelled from the spec: `PullRequest` is defined outside `src/`; abstract record. -/
structure PullRequest where
  data : String
deriving DecidableEq

/-- Modelled from the spec: `Review` is defined outside `src/`; abstract record. -/
structure Review where
  data : String
deriving DecidableEq

/-- Label on a PR (webhook.go:34-39). -/
structure Label where
  URL : String
  Name : String
  Description : String
  Color : String
deriving DecidableEq

/-- PushCommit represents general info about a commit (webhook.go:42-48). -/
structure PushCommit where
  ID : String
  Message : String
  Added : List String
  Removed : List String
  Modified : List String
deriving DecidableEq

/-- PushHook represents a push hook (webhook.go:51-65). -/
structure PushHook where
  Ref : String
  BaseRef : String
  Repo : Repository
  Before : String
  After : String
  Created : Bool
  Deleted : Bool
  Forced : Bool
  Compare : String
  Commits : List PushCommit
  Commit : Commit
  Sender : User
  GUID : String
deriving DecidableEq

/-- BranchHook represents a branch event (webhook.go:69-74). -/
structure BranchHook where
  Ref : Reference
  Repo : Repository
  Action : Action
  Sender : User
deriving DecidableEq

/-- TagHook represents a tag event (webhook.go:78-83). -/
structure TagHook where
  Ref : Reference
  Repo : Repository
  Action : Action
  Sender : User
deriving DecidableEq

/-- IssueHook represents an issue event (webhook.go:86-91). -/
structure IssueHook where
  Action : Action
  Repo : Repository
  Issue : Issue
  Sender : User
deriving DecidableEq

/-- IssueCommentHook represents an issue comment event (webhook.go:95-101). -/
structure IssueCommentHook where
  Action : Action
  Repo : Repository
  Issue : Issue
  Comment : Comment
  Sender : User
deriving DecidableEq

/-- webhook.go:103-105. -/
structure PullRequestHookBranchFrom where
  From : String
deriving DecidableEq

/-- webhook.go:107-111. -/
structure PullRequestHookBranch where
  Ref : PullRequestHookBranchFrom
  Sha : PullRequestHookBranchFrom
  Repo : Repository
deriving DecidableEq

/-- webhook.go:113-115. -/
structure PullRequestHookChanges where
  Base : PullRequestHookBranch
deriving DecidableEq

/-- PullRequestHook represents a pull request event (webhook.go:119-127). -/
structure PullRequestHook where
  Action : Action
  Repo : Repository
  Label : Label
  PullRequest : PullRequest
  Sender : User
  Changes : PullRequestHookChanges
  GUID : String
deriving DecidableEq

/-- PullRequestCommentHook represents a pull request comment event (webhook.go:131-137). -/
structure PullRequestCommentHook where
  Action : Action
  Repo : Repository
  PullRequest : PullRequest
  Comment : Comment
  Sender : User
deriving DecidableEq

/-- ReviewCommentHook represents a pull request review comment (webhook.go:141-146). -/
structure ReviewCommentHook where
  Action : Action
  Repo : Repository
  PullRequest : PullRequest
  Review : Review
deriving DecidableEq

/-- DeployHook represents a deployment event (webhook.go:150-159). The Go field
`Data interface\x7b\x7d` is modelled as a JSON value. -/
structure DeployHook where
  Data : Json
  Desc : String
  Ref : Reference
  Repo : Repository
  Sender : User
  Target : String
  TargetURL : String
  Task : String

/-- The nine concrete hook record kinds of the closed set. -/
inductive HookKind where
  | push
  | branch
  | tag
  | issue
  | issueComment
  | pullRequest
  | pullRequestComment
  | reviewComment
  | deploy
deriving DecidableEq, BEq

/-- A concrete hook record value: one of the nine variants of the closed set. -/
inductive HookVal where
  | push (h : PushHook)
  | branch (h : BranchHook)
  | tag (h : TagHook)
  | issue (h : IssueHook)
  | issueComment (h : IssueCommentHook)
  | pullRequest (h : PullRequestHook)
  | pullRequestComment (h : PullRequestCommentHook)
  | reviewComment (h : ReviewCommentHook)
  | deploy (h : DeployHook)

/-- The kind of a hook record value. -/
def HookVal.kind : HookVal → HookKind
  | .push _ => .push
  | .branch _ => .branch
  | .tag _ => .tag
  | .issue _ => .issue
  | .issueComment _ => .issueComment
  | .pullRequest _ => .pullRequest
  | .pullRequestComment _ => .pullRequestComment
  | .reviewComment _ => .reviewComment
  | .deploy _ => .deploy

/-- The dynamic part of a non-nil Go interface value: either one of the nine
hook records (held directly, `isPtr = false`, dynamic type `T`; or through a
pointer, `isPtr = true`, dynamic type `*T`), or a value of some concrete type
outside the closed set, identified by its type name. -/
inductive GoDyn where
  | hook (v : HookVal) (isPtr : Bool)
  | otherType (typeName : String)

/-- Go method-set rule applied to webhook.go:177-185: the nine `Repository()`
methods all have pointer receivers, so a hook record implements the `Webhook`
interface only through a pointer (`*T`), never as a bare value `T`. A
`Webhook`-typed field therefore holds `none` (nil interface) or a well-typed
dynamic value per this predicate. -/
def wellTypedWebhook : Option GoDyn → Bool
  | none => true
  | some (.hook _ isPtr) => isPtr
  | some (.otherType _) => true

/-- WebhookUnmarshaler wraps Webhook and assigns a type for unmarshalling
(webhook.go:28-31). The Go fields are `Type string` and `Webhook Webhook`;
`Type` is a Lean keyword, so the fields are lower-cased here. The `Webhook`
interface field is a possibly-nil dynamic value. -/
structure WebhookUnmarshaler where
  type : String
  webhook : Option GoDyn

/-- Embeds `func (h *PushHook) Repository() Repository` (webhook.go:177). -/
def PushHook.repository (h : PushHook) : Repository := h.Repo

/-- Embeds `func (h *BranchHook) Repository() Repository` (webhook.go:178). -/
def BranchHook.repository (h : BranchHook) : Repository := h.Repo

/-- Embeds `func (h *DeployHook) Repository() Repository` (webhook.go:179). -/
def DeployHook.repository (h : DeployHook) : Repository := h.Repo

/-- Embeds `func (h *TagHook) Repository() Repository` (webhook.go:180). -/
def TagHook.repository (h : TagHook) : Repository := h.Repo

/-- Embeds `func (h *IssueHook) Repository() Repository` (webhook.go:181). -/
def IssueHook.repository (h : IssueHook) : Repository := h.Repo

/-- Embeds `func (h *IssueCommentHook) Repository() Repository` (webhook.go:182). -/
def IssueCommentHook.repository (h : IssueCommentHook) : Repository := h.Repo

/-- Embeds `func (h *PullRequestHook) Repository() Repository` (webhook.go:183). -/
def PullRequestHook.repository (h : PullRequestHook) : Repository := h.Repo

/-- Embeds `func (h *PullRequestCommentHook) Repository() Repository` (webhook.go:184). -/
def PullRequestCommentHook.repository (h : PullRequestCommentHook) : Repository := h.Repo

/-- Embeds `func (h *ReviewCommentHook) Repository() Repository` (webhook.go:185). -/
def ReviewCommentHook.repository (h : ReviewCommentHook) : Repository := h.Repo

/-- Dynamic dispatch of the `Repository()` capability over the closed set. -/
def HookVal.repository : HookVal → Repository
  | .push h => h.repository
  | .branch h => h.repository
  | .tag h => h.repository
  | .issue h => h.repository
  | .issueComment h => h.repository
  | .pullRequest h => h.repository
  | .pullRequestComment h => h.repository
  | .reviewComment h => h.repository
  | .deploy h => h.repository

/-- Go type assertion `g.(T)` where `T` is the bare (non-pointer) hook record
type of kind `k` (as written in webhook.go:195-243): it succeeds iff the
interface is non-nil and its dynamic type is exactly `T` — a dynamic type of
`*T` (pointer) or any type outside the closed set fails the assertion. Only
the success bit is used by MarshalJSON (`_, ok := ...`). -/
def assertVal : Option GoDyn → HookKind → Bool
  | some (.hook v isPtr), k => !isPtr && (v.kind == k)
  | some (.otherType _), _ => false
  | none, _ => false

/-- Embeds `marshaledHook["webhook"] = wu.Webhook` followed by `json.Marshal`: a nil
interface marshals to JSON null, otherwise the dynamic value is serialized by
the structural field mapping `enc` (the `encoding/json` struct encoder, which
lives outside this repository and is abstracted as a parameter). -/
def encIface (enc : GoDyn → Json) : Option GoDyn → Json
  | none => Json.null
  | some d => enc d

/-- The error built at webhook.go:249. -/
def unsupportedVariantMsg : String :=
  "WebhookUnmarshaler.Webhook does not implement a concrete Webhook type"

/-- Embeds `func (wu *WebhookUnmarshaler) MarshalJSON() ([]byte, error)`
(webhook.go:188-250). Each branch tests a value-type assertion on
`genericWebhook` and, on success, marshals the two-member map
`{"type": <token>, "webhook": <payload>}` (Go marshals map keys in sorted
order: "type" < "webhook"). The method never assigns to the receiver; the
returned second component is the receiver state after the call. -/
def WebhookUnmarshaler.marshalJSON (enc : GoDyn → Json) (wu : WebhookUnmarshaler) :
    Except GoError Json × WebhookUnmarshaler :=
  let genericWebhook := wu.webhook
  if assertVal genericWebhook .push then
    (.ok (.obj [("type", .str "pushHook"), ("webhook", encIface enc genericWebhook)]), wu)
  else if assertVal genericWebhook .branch then
    (.ok (.obj [("type", .str "branchHook"), ("webhook", encIface enc genericWebhook)]), wu)
  else if assertVal genericWebhook .deploy then
    (.ok (.obj [("type", .str "deployHook"), ("webhook", encIface enc genericWebhook)]), wu)
  else if assertVal genericWebhook .tag then
    (.ok (.obj [("type", .str "tagHook"), ("webhook", encIface enc genericWebhook)]), wu)
  else if assertVal genericWebhook .issue then
    (.ok (.obj [("type", .str "issueHook"), ("webhook", encIface enc genericWebhook)]), wu)
  else if assertVal genericWebhook .issueComment then
    (.ok (.obj [("type", .str "issueCommentHook"), ("webhook", encIface enc genericWebhook)]), wu)
  else if assertVal genericWebhook .pullRequest then
    (.ok (.obj [("type", .str "pullRequestHook"), ("webhook", encIface enc genericWebhook)]), wu)
  else if assertVal genericWebhook .pullRequestComment then
    (.ok (.obj [("type", .str "pullRequestCommentHook"), ("webhook", encIface enc genericWebhook)]), wu)
  else if assertVal genericWebhook .reviewComment then
    (.ok (.obj [("type", .str "reviewCommentHook"), ("webhook", encIface enc genericWebhook)]), wu)
  else
    (.error (.errorf unsupportedVariantMsg), wu)

/-- Embeds `json.Unmarshal(b, &objMap)` with `objMap map[string]*json.RawMessage`
(webhook.go:254-255): a syntax error for malformed input; for valid JSON the
target accepts an object (every member value is captured raw, so any member
shape is fine) or `null` (which leaves the nil map unchanged without error);
any other top-level value is a type mismatch. `none` models a nil map. -/
def decodeRawMap : Bytes → Except GoError (Option (List (String × Json)))
  | .malformed => .error .jsonSyntax
  | .wellFormed (.obj fields) => .ok (some fields)
  | .wellFormed .null => .ok none
  | .wellFormed _ => .error (.typeMismatch "map[string]*json.RawMessage")

/-- Member values of a JSON object decoded into Go `string`s, for
`map[string]string`: fails on the first non-string member value. -/
def stringFields : List (String × Json) → Except GoError (List (String × String))
  | [] => .ok []
  | (k, .str s) :: rest => (stringFields rest).map (fun tail => (k, s) :: tail)
  | (_, _) :: _ => .error (.typeMismatch "string")

/-- Embeds `json.Unmarshal(raw, &webhookMap)` with `webhookMap map[string]string`
(webhook.go:261-262). -/
def decodeStringMap : Json → Except GoError (Option (List (String × String)))
  | .obj fields => (stringFields fields).map some
  | .null => .ok none
  | _ => .error (.typeMismatch "map[string]string")

/-- Go map indexing `m[k]` on a possibly-nil `map[string]string`: the zero
value `""` when the map is nil or the key is absent. -/
def lookupStr (m : Option (List (String × String))) (k : String) : String :=
  match m with
  | none => ""
  | some l => (l.lookup k).getD ""

/-- The Go runtime panic message for dereferencing a nil pointer. -/
def nilDerefPanicMsg : String :=
  "runtime error: invalid memory address or nil pointer dereference"

/-- Embeds `func (wu *WebhookUnmarshaler) UnmarshalJSON(b []byte) error`
(webhook.go:253-351). The body decodes `b` into `objMap` (returning any
error), then declares `var rawMessage *json.RawMessage` WITHOUT ever assigning
it (webhook.go:260) and evaluates `*rawMessage` (webhook.go:262): `rawMessage`
is nil, so this dereference panics at runtime. The dispatch at
webhook.go:267-348 is therefore unreachable; it is modelled under the
`some raw` arm exactly as written — each recognized branch declares a nil hook
pointer `var h *T` and calls `json.Unmarshal(*rawMessage, h)`, which returns
`json.InvalidUnmarshalError` for a nil target (note the branches for
issueCommentHook, pullRequestHook, pullRequestCommentHook and reviewCommentHook
declare `*IssueHook`, webhook.go:314-341), and an unrecognized token falls
through to `return nil`. The result pairs the returned `error` with the
receiver state after the call. -/
def WebhookUnmarshaler.unmarshalJSON (wu : WebhookUnmarshaler) (b : Bytes) :
    GoOutcome (Option GoError × WebhookUnmarshaler) :=
  match decodeRawMap b with
  | .error err => .ok (some err, wu)
  | .ok _objMap =>
    let rawMessage : Option Json := none
    match rawMessage with
    | none => .panicked nilDerefPanicMsg
    | some raw =>
      match decodeStringMap raw with
      | .error err => .ok (some err, wu)
      | .ok webhookMap =>
        if lookupStr webhookMap "type" = "pushHook" then
          .ok (some (.invalidUnmarshal "*scm.PushHook"), wu)
        else if lookupStr webhookMap "type" = "branchHook" then
          .ok (some (.invalidUnmarshal "*scm.BranchHook"), wu)
        else if lookupStr webhookMap "type" = "deployHook" then
          .ok (some (.invalidUnmarshal "*scm.DeployHook"), wu)
        else if lookupStr webhookMap "type" = "tagHook" then
          .ok (some (.invalidUnmarshal "*scm.TagHook"), wu)
        else if lookupStr webhookMap "type" = "issueHook" then
          .ok (some (.invalidUnmarshal "*scm.IssueHook"), wu)
        else if lookupStr webhookMap "type" = "issueCommentHook" then
          .ok (some (.invalidUnmarshal "*scm.IssueHook"), wu)
        else if lookupStr webhookMap "type" = "pullRequestHook" then
          .ok (some (.invalidUnmarshal "*scm.IssueHook"), wu)
        else if lookupStr webhookMap "type" = "pullRequestCommentHook" then
          .ok (some (.invalidUnmarshal "*scm.IssueHook"), wu)
        else if lookupStr webhookMap "type" = "reviewCommentHook" then
          .ok (some (.invalidUnmarshal "*scm.IssueHook"), wu)
        else
          .ok (none, wu)

/-- The Go zero value of `Repository` as modelled here. -/
def zeroRepository : Repository := ⟨""⟩

/-- The Go zero value of `PushHook`: every field zero-valued. -/
def zeroPushHook : PushHook :=
  { Ref := "", BaseRef := "", Repo := zeroRepository, Before := "", After := ""
    Created := false, Deleted := false, Forced := false, Compare := ""
    Commits := [], Commit := ⟨""⟩, Sender := ⟨""⟩, GUID := "" }

/-- The Go zero value of `IssueCommentHook`: every field zero-valued. -/
def zeroIssueCommentHook : IssueCommentHook :=
  { Action := ⟨0⟩, Repo := zeroRepository, Issue := ⟨""⟩, Comment := ⟨""⟩, Sender := ⟨""⟩ }

/-- The Go zero value of `TagHook`: every field zero-valued. -/
def zeroTagHook : TagHook :=
  { Ref := ⟨""⟩, Repo := zeroRepository, Action := ⟨0⟩, Sender := ⟨""⟩ }

/-- Helper: for every receiver whose `Webhook` field is well typed at Go's
interface-value level (nil, a pointer-held hook, or a type outside the closed
set — the only values the Go type system admits for a `Webhook` field),
`MarshalJSON` returns the "does not implement" error: every type assertion in
webhook.go:195-247 targets a bare value type, which no such interface value
has as its dynamic type. -/
theorem marshalJSON_errors_of_wellTyped (enc : GoDyn → Json) (wu : WebhookUnmarshaler)
    (hw : wellTypedWebhook wu.webhook = true) :
    (WebhookUnmarshaler.marshalJSON enc wu).1 = .error (.errorf unsupportedVariantMsg) := by
  rcases wu with ⟨t, w⟩
  rcases w with _ | (⟨v, isPtr⟩ | n)
  · rfl
  · cases isPtr
    · exact absurd hw (by simp [wellTypedWebhook])
    · rcases v with h | h | h | h | h | h | h | h | h <;> rfl
  · rfl

/-- C1: the round trip `Decode(Encode(e))` fails on the code for a zero-valued
`PushHook` held (as Go's method-set rule forces) through a pointer: Encode
returns the "does not implement a concrete Webhook type" error instead of
bytes, and Decode of a well-formed push envelope panics on the nil
`rawMessage` dereference instead of reproducing the value. -/
theorem c1_roundtrip_fails_on_pushHook :
    (WebhookUnmarshaler.marshalJSON (fun _ => Json.null)
        ⟨"", some (.hook (.push zeroPushHook) true)⟩).1
      = .error (.errorf unsupportedVariantMsg) ∧
    WebhookUnmarshaler.unmarshalJSON ⟨"", none⟩
        (.wellFormed (.obj [("type", .str "pushHook"), ("webhook", .obj [])]))
      = .panicked nilDerefPanicMsg :=
  ⟨rfl, rfl⟩

/-- C2: decoding the envelope whose discriminator is "pullRequestCommentHook"
does not produce a `PullRequestCommentHook`: the body panics dereferencing the
never-assigned `rawMessage` before any dispatch (and the unreachable dispatch
branch for that token declares a `*IssueHook` target, webhook.go:330-337). -/
theorem c2_dispatch_panics_on_pullRequestCommentHook :
    WebhookUnmarshaler.unmarshalJSON ⟨"", none⟩
        (.wellFormed (.obj [("type", .str "pullRequestCommentHook"), ("webhook", .obj [])]))
      = .panicked nilDerefPanicMsg := rfl

/-- C3: decoding the envelope with unknown discriminator "madeUpHook" does not
return an `UnknownDiscriminator` error: the body panics on the nil
`rawMessage` dereference (and the unreachable dispatch would fall through to
`return nil`, reporting no error at all). -/
theorem c3_unknown_discriminator_panics :
    WebhookUnmarshaler.unmarshalJSON ⟨"", none⟩
        (.wellFormed (.obj [("type", .str "madeUpHook"), ("webhook", .obj [])]))
      = .panicked nilDerefPanicMsg := rfl

/-- C4: `MarshalJSON` does not succeed for any of the 9 variants: a `TagHook`
can only satisfy the `Webhook` interface through a pointer (`*TagHook`), and
on that receiver MarshalJSON returns the unsupported-variant error. -/
theorem c4_marshal_rejects_tagHook_pointer :
    (WebhookUnmarshaler.marshalJSON (fun _ => Json.null)
        ⟨"", some (.hook (.tag zeroTagHook) true)⟩).1
      = .error (.errorf unsupportedVariantMsg) := rfl

/-- C5: `UnmarshalJSON` does not terminate normally on every input: for every
receiver and every well-formed JSON object input (whatever its members), the
body panics with a nil-pointer dereference at webhook.go:262 instead of
returning an error value. -/
theorem c5_unmarshal_panics_on_every_object (wu : WebhookUnmarshaler)
    (fields : List (String × Json)) :
    wu.unmarshalJSON (.wellFormed (.obj fields)) = .panicked nilDerefPanicMsg := rfl

/-- C6: a recognized discriminator with a payload that cannot fit the selected
variant shape does not yield a `PayloadDecodeError`: the body panics on the
nil `rawMessage` dereference before any payload decoding (and the unreachable
per-type decode targets a nil hook pointer, which `json.Unmarshal` rejects
with `InvalidUnmarshalError` regardless of the payload). -/
theorem c6_shape_mismatch_panics :
    WebhookUnmarshaler.unmarshalJSON ⟨"", none⟩
        (.wellFormed (.obj [("type", .str "pushHook"),
          ("webhook", .obj [("unexpectedField", .num 1)])]))
      = .panicked nilDerefPanicMsg := rfl

/-- C7: for every value of each of the 9 event variants, the `Repository()`
method returns exactly the `Repository` record stored in the value's `Repo`
field (including when that field is the zero value, since the equations hold
for all field values); each method is embedded as a pure field projection —
the Go bodies perform no assignment or construction. -/
theorem c7_repository_projects_repo_field :
    (∀ h : PushHook, h.repository = h.Repo) ∧
    (∀ h : BranchHook, h.repository = h.Repo) ∧
    (∀ h : DeployHook, h.repository = h.Repo) ∧
    (∀ h : TagHook, h.repository = h.Repo) ∧
    (∀ h : IssueHook, h.repository = h.Repo) ∧
    (∀ h : IssueCommentHook, h.repository = h.Repo) ∧
    (∀ h : PullRequestHook, h.repository = h.Repo) ∧
    (∀ h : PullRequestCommentHook, h.repository = h.Repo) ∧
    (∀ h : ReviewCommentHook, h.repository = h.Repo) :=
  ⟨fun _ => rfl, fun _ => rfl, fun _ => rfl, fun _ => rfl, fun _ => rfl,
   fun _ => rfl, fun _ => rfl, fun _ => rfl, fun _ => rfl⟩

/-- C8: `MarshalJSON` never emits the claimed two-member envelope for a value
of one of the 9 variants: an `IssueCommentHook` reaches the method only
through a pointer (`*IssueCommentHook`), and there the method produces no
bytes at all — it returns the unsupported-variant error. -/
theorem c8_no_envelope_for_issueCommentHook :
    (WebhookUnmarshaler.marshalJSON (fun _ => Json.null)
        ⟨"", some (.hook (.issueComment zeroIssueCommentHook) true)⟩).1
      = .error (.errorf unsupportedVariantMsg) := rfl

/-- C9: `MarshalJSON` leaves both fields of its receiver unchanged, whether it
succeeds or returns an error: the receiver state after the call equals the
receiver state before it, for every encoder and every receiver value. -/
theorem c9_marshalJSON_preserves_receiver (enc : GoDyn → Json)
    (wu : WebhookUnmarshaler) :
    (WebhookUnmarshaler.marshalJSON enc wu).2 = wu := by
  rcases wu with ⟨t, w⟩
  rcases w with _ | (⟨v, isPtr⟩ | n)
  · rfl
  · cases isPtr <;> rcases v with h | h | h | h | h | h | h | h | h <;> rfl
  · rfl

/-- C10: the output of `MarshalJSON` (bytes or error) is determined solely by
the `Webhook` field: two receivers with equal `Webhook` fields produce the
same result regardless of their `Type` strings, which the method never
reads. -/
theorem c10_marshalJSON_ignores_type_field (enc : GoDyn → Json)
    (wu₁ wu₂ : WebhookUnmarshaler) (hw : wu₁.webhook = wu₂.webhook) :
    (WebhookUnmarshaler.marshalJSON enc wu₁).1
      = (WebhookUnmarshaler.marshalJSON enc wu₂).1 := by
  rcases wu₁ with ⟨t₁, w₁⟩
  rcases wu₂ with ⟨t₂, w₂⟩
  cases hw
  rcases w₁ with _ | (⟨v, isPtr⟩ | n)
  · rfl
  · cases isPtr <;> rcases v with h | h | h | h | h | h | h | h | h <;> rfl
  · rfl

/-- Witness for C10 at concrete receivers: the `Type` strings differ
("typeA" vs "typeB") while the `Webhook` fields are equal, and the outputs
coincide. -/
theorem c10_marshalJSON_ignores_type_field_witness :
    (WebhookUnmarshaler.marshalJSON (fun _ => Json.null)
        ⟨"typeA", some (.hook (.push zeroPushHook) true)⟩).1
      = (WebhookUnmarshaler.marshalJSON (fun _ => Json.null)
        ⟨"typeB", some (.hook (.push zeroPushHook) true)⟩).1 :=
  c10_marshalJSON_ignores_type_field (fun _ => Json.null)
    ⟨"typeA", some (.hook (.push zeroPushHook) true)⟩
    ⟨"typeB", some (.hook (.push zeroPushHook) true)⟩ rfl

end GoScm
